import Mathlib

/-!
Shallow embedding of the momentum rebalancing bot in `kz_bot2.py`:
risk manager, mock market / price oracle, momentum targets, and the
rebalance step, with theorems about the spec's claims.

Python floats are modelled by `ℚ`; exceptions raised by external
collaborators (Roostoo, Horus) by `Except String`; the pseudo random
draws of `random.uniform` by an explicit stream of perturbations.
-/

namespace KzBot2

/-- `INITIAL_CASH = 1_000_000` (kz_bot2.py line 18). -/
def INITIAL_CASH : ℚ := 1000000

/-- `BASE_PER_PERCENT = 10_000` (kz_bot2.py line 23). -/
def BASE_PER_PERCENT : ℚ := 10000

/-- The fixed symbol universe `SYMBOLS = ["BTC/USD", "ETH/USD", "SOL/USD"]`. -/
inductive Sym where
  | btc
  | eth
  | sol
deriving DecidableEq

/-- `symbol.split("/")[0]`: the base asset ticker of a symbol. -/
def Sym.base : Sym → String
  | .btc => "BTC"
  | .eth => "ETH"
  | .sol => "SOL"

/-- `sym.replace("/", "")`: the pair string sent to `get_market_price`. -/
def Sym.pair : Sym → String
  | .btc => "BTCUSD"
  | .eth => "ETHUSD"
  | .sol => "SOLUSD"

/-- `SYMBOLS` (kz_bot2.py line 22). -/
def SYMBOLS : List Sym := [.btc, .eth, .sol]

/-- The mutable state of `RiskManager` (kz_bot2.py lines 29-35). -/
structure RiskManager where
  max_drawdown : ℚ
  max_per_asset : ℚ
  daily_loss_limit : ℚ
  peak : ℚ
  today_pnl : ℚ
deriving DecidableEq

/-- `RiskManager.__init__` (kz_bot2.py lines 30-35). -/
def RiskManager.init : RiskManager where
  max_drawdown := 10 / 100
  max_per_asset := 35 / 100
  daily_loss_limit := 4 / 100
  peak := INITIAL_CASH
  today_pnl := 0

/-- The three risk gates of `RiskManager.check` (kz_bot2.py lines 39-52),
evaluated on the state whose `peak` was already updated by line 38:
drawdown, then concentration (the loop over `positions.values()`), then
daily loss; the first violated gate returns `False`, else `True`. -/
def RiskManager.verdict (rm : RiskManager) (total_value : ℚ)
    (positions : List ℚ) : Bool :=
  if (rm.peak - total_value) / rm.peak > rm.max_drawdown then
    false
  else if positions.any (fun value => decide (value / total_value > rm.max_per_asset)) then
    false
  else if rm.today_pnl < -rm.daily_loss_limit * INITIAL_CASH then
    false
  else
    true

/-- `RiskManager.check` (kz_bot2.py lines 37-52): first mutate
`self.peak = max(self.peak, total_value)`, then evaluate the gates on the
updated state; returns the verdict together with the updated state. -/
def RiskManager.check (rm : RiskManager) (total_value : ℚ)
    (positions : List ℚ) : Bool × RiskManager :=
  let u : RiskManager := { rm with peak := max rm.peak total_value }
  (u.verdict total_value positions, u)

/-- A sequence of calls to `RiskManager.check`, each carrying the
`total_value` and the list of position values; returns the final state. -/
def runChecks (rm : RiskManager) (calls : List (ℚ × List ℚ)) : RiskManager :=
  calls.foldl (fun s c => (s.check c.1 c.2).2) rm

/-- The state of `MockMarket` (kz_bot2.py lines 56-60): a current and a
previous price per symbol. -/
structure MockMarket where
  prices : Sym → ℚ
  prev_prices : Sym → ℚ

/-- `MockMarket.__init__` (kz_bot2.py lines 58-60): fixed seed prices,
`prev_prices` a copy of `prices`. -/
def MockMarket.init : MockMarket where
  prices := fun s => match s with
    | .btc => 68000
    | .eth => 3500
    | .sol => 180
  prev_prices := fun s => match s with
    | .btc => 68000
    | .eth => 3500
    | .sol => 180

/-- `MockMarket.update` (kz_bot2.py lines 62-68): copy current prices to
`prev_prices`, then perturb every symbol's price by its random factor.
The draws of `random.uniform(-0.01, 0.01)` for this call are the
argument `change`. -/
def MockMarket.update (m : MockMarket) (change : Sym → ℚ) : MockMarket where
  prices := fun s => m.prices s * (1 + change s)
  prev_prices := m.prices

/-- `MockMarket.get_price` (kz_bot2.py lines 70-71). -/
def MockMarket.get_price (m : MockMarket) (s : Sym) : ℚ := m.prices s

/-- `MockMarket.get_return` (kz_bot2.py lines 73-75). -/
def MockMarket.get_return (m : MockMarket) (s : Sym) : ℚ :=
  m.prices s / m.prev_prices s - 1

/-- The mock market together with the stream of pseudo random draws:
`rng n` gives the per-symbol draws consumed by the `n`-th call to
`MockMarket.update`, and `tick` counts the calls made so far. -/
structure OracleState where
  mock : MockMarket
  rng : ℕ → Sym → ℚ
  tick : ℕ

/-- One `self.mock.update()` call: consume the next draws of the stream. -/
def OracleState.update (st : OracleState) : OracleState where
  mock := st.mock.update (st.rng st.tick)
  rng := st.rng
  tick := st.tick + 1

/-- `ExchangeClient.fetch_price` (kz_bot2.py lines 89-101).
`horus_latest` is the external Horus collaborator's
`get_latest_price(asset)`, which may raise (`.error`); the `except`
branch falls back to the simulator, after an update.  When
`FORCE_HORUS_422` is set the simulator is used unconditionally. -/
def fetch_price (force422 : Bool) (horus_latest : String → Except String ℚ)
    (st : OracleState) (symbol : Sym) : ℚ × OracleState :=
  if force422 then
    let st := st.update
    (st.mock.get_price symbol, st)
  else
    match horus_latest symbol.base with
    | .ok p => (p, st)
    | .error _ =>
        let st := st.update
        (st.mock.get_price symbol, st)

/-- The cap step of the rebalance loop (kz_bot2.py lines 169-172):
`diff_usd = target - current`; if `current + diff_usd > total * 0.35`,
clamp `diff_usd` to `total * 0.35 - current`. -/
def clampDiff (total_value current_usd target_usd : ℚ) : ℚ :=
  let diff_usd := target_usd - current_usd
  if current_usd + diff_usd > total_value * (35 / 100) then
    total_value * (35 / 100) - current_usd
  else
    diff_usd

/-- An order passed to `place_order(sym, side, amount)`
(kz_bot2.py lines 175-177). -/
structure Order where
  symbol : Sym
  side : String
  amount : ℚ
deriving DecidableEq

/-- The rebalance loop (kz_bot2.py lines 167-178): per symbol, compute the
clamped diff; when `abs(diff_usd) > 500`, emit the order with
`amount = diff_usd / prices[sym]` and side `buy` iff `amount > 0`. -/
def rebalanceOrders (syms : List Sym) (momentum_targets positions prices : Sym → ℚ)
    (total_value : ℚ) : List Order :=
  syms.filterMap (fun sym =>
    let current_usd := positions sym
    let diff_usd := clampDiff total_value current_usd (momentum_targets sym)
    if |diff_usd| > 500 then
      let amount := diff_usd / prices sym
      some { symbol := sym
             side := if amount > 0 then "buy" else "sell"
             amount := amount }
    else
      none)

/-- The momentum target computation (kz_bot2.py lines 161-162):
`target_usd = ret * BASE_PER_PERCENT * 100`;
`momentum_targets[sym] = positions[sym] + target_usd`. -/
def computeTargets (positions ret : Sym → ℚ) : Sym → ℚ :=
  fun sym => positions sym + ret sym * BASE_PER_PERCENT * 100

/-- The external collaborators of one cycle, with the configuration flags.
Each fallible call is an `Except`: `.error` models the collaborator
raising an exception. Balances are modelled as total functions from
asset ticker to quantity, matching the `.get(asset, 0)` accesses. -/
structure Collab where
  force422 : Bool
  dry_run : Bool
  horus_latest : String → Except String ℚ
  horus_market : String → Except String (List ℚ)
  roostoo_balance : Except String (String → ℚ)
  roostoo_order : Sym → String → ℚ → Except String Unit

/-- `ExchangeClient.get_balance` (kz_bot2.py lines 103-106): a fixed
synthetic balance in dry-run mode, else the Roostoo collaborator (which
may raise). -/
def get_balance (c : Collab) : Except String (String → ℚ) :=
  if c.dry_run then
    .ok (fun a =>
      if a = "USD" then 500000
      else if a = "BTC" then 2
      else if a = "ETH" then 15
      else if a = "SOL" then 200
      else 0)
  else
    c.roostoo_balance

/-- `ExchangeClient.place_order` (kz_bot2.py lines 108-117): no-op on zero
amount; a synthetic fill in dry-run; else the Roostoo collaborator with
its exceptions caught (`None` on failure). Never raises to the caller. -/
def place_order (c : Collab) (symbol : Sym) (side : String) (amount : ℚ) :
    Option String :=
  if amount = 0 then none
  else if c.dry_run then some "filled"
  else
    match c.roostoo_order symbol side |amount| with
    | .ok _ => some "submitted"
    | .error _ => none

/-- The dict comprehension of kz_bot2.py line 129: fetch the price of each
symbol of `SYMBOLS` in order, threading the simulator state. -/
def fetchAll (c : Collab) (st : OracleState) : (Sym → ℚ) × OracleState :=
  let (pbtc, st1) := fetch_price c.force422 c.horus_latest st .btc
  let (peth, st2) := fetch_price c.force422 c.horus_latest st1 .eth
  let (psol, st3) := fetch_price c.force422 c.horus_latest st2 .sol
  (fun s => match s with
    | .btc => pbtc
    | .eth => peth
    | .sol => psol, st3)

/-- The per-symbol return of the momentum loop (kz_bot2.py lines 150-159):
the simulator's return under `FORCE_HORUS_422`, else the two most recent
closes from Horus with any exception of the fetch (including a division
by a zero close, a `ZeroDivisionError` in Python) caught to `0`. -/
def momentumReturn (c : Collab) (mock : MockMarket) (sym : Sym) : ℚ :=
  if c.force422 then
    mock.get_return sym
  else
    match c.horus_market sym.pair with
    | .ok (c0 :: c1 :: _) => if c1 = 0 then 0 else c0 / c1 - 1
    | .ok _ => 0
    | .error _ => 0

/-- The persistent state of `DynamicMomentumBot`: the simulator (owned by
the client) and the risk manager. -/
structure BotState where
  oracle : OracleState
  risk : RiskManager

/-- The body of `DynamicMomentumBot.step` inside its `try`
(kz_bot2.py lines 128-178): fetch prices, fetch balances (which may
raise), build the portfolio snapshot, run the risk gate, compute momentum
targets, and emit the rebalance orders through `place_order`. The result
pairs the state at exit with either the emitted orders or the exception
that escaped to the outer handler. -/
def stepBody (c : Collab) (st : BotState) :
    BotState × Except String (List Order) :=
  let (prices, oracle) := fetchAll c st.oracle
  match get_balance c with
  | .error e => (⟨oracle, st.risk⟩, .error e)
  | .ok balance =>
      let usd := balance "USD"
      let positions : Sym → ℚ := fun sym => balance sym.base * prices sym
      let total_value := usd + (SYMBOLS.map positions).sum
      let (ok, risk) := st.risk.check total_value (SYMBOLS.map positions)
      if !ok then
        (⟨oracle, risk⟩, .ok [])
      else
        let momentum_targets :=
          computeTargets positions (momentumReturn c oracle.mock)
        let orders :=
          rebalanceOrders SYMBOLS momentum_targets positions prices total_value
        let _acks := orders.map (fun o => place_order c o.symbol o.side o.amount)
        (⟨oracle, risk⟩, .ok orders)

/-- `DynamicMomentumBot.step` (kz_bot2.py lines 126-181): the whole body
runs under `try`, and the `except Exception` handler at lines 180-181
logs the failure and returns normally. -/
def step (c : Collab) (st : BotState) : BotState × Except String (List Order) :=
  match stepBody c st with
  | (st', .ok orders) => (st', .ok orders)
  | (st', .error _) => (st', .ok [])

/-- A pseudo random stream drawing the maximal `+1%` for every symbol on
every update: one admissible behavior of `random.uniform(-0.01, 0.01)`. -/
def constDraw : ℕ → Sym → ℚ := fun _ _ => 1 / 100

/-- A Horus collaborator whose `get_latest_price` always raises (the
situation `FORCE_HORUS_422` simulates). -/
def horusDown : String → Except String ℚ := fun _ => .error "HTTP 422"

/-- The oracle state at startup: freshly seeded simulator, no update yet. -/
def oracle0 : OracleState where
  mock := MockMarket.init
  rng := constDraw
  tick := 0

section RiskLemmas

variable (rm : RiskManager) (t : ℚ) (ps : List ℚ)

theorem check_snd_peak : ((rm.check t ps).2).peak = max rm.peak t := rfl

theorem check_snd_today_pnl : ((rm.check t ps).2).today_pnl = rm.today_pnl := rfl

theorem check_snd_max_drawdown :
    ((rm.check t ps).2).max_drawdown = rm.max_drawdown := rfl

theorem check_snd_max_per_asset :
    ((rm.check t ps).2).max_per_asset = rm.max_per_asset := rfl

theorem check_snd_daily_loss_limit :
    ((rm.check t ps).2).daily_loss_limit = rm.daily_loss_limit := rfl

/-- The verdict is `true` exactly when all three gates pass. -/
theorem verdict_true_iff :
    rm.verdict t ps = true ↔
      ¬((rm.peak - t) / rm.peak > rm.max_drawdown) ∧
      (∀ v ∈ ps, ¬(v / t > rm.max_per_asset)) ∧
      ¬(rm.today_pnl < -rm.daily_loss_limit * INITIAL_CASH) := by
  unfold RiskManager.verdict
  constructor
  · intro h
    by_cases h1 : (rm.peak - t) / rm.peak > rm.max_drawdown
    · rw [if_pos h1] at h; exact absurd h (by simp)
    · rw [if_neg h1] at h
      by_cases h2 : ps.any (fun value => decide (value / t > rm.max_per_asset)) = true
      · rw [if_pos h2] at h; exact absurd h (by simp)
      · rw [if_neg h2] at h
        by_cases h3 : rm.today_pnl < -rm.daily_loss_limit * INITIAL_CASH
        · rw [if_pos h3] at h; exact absurd h (by simp)
        · refine ⟨h1, ?_, h3⟩
          intro v hv hgt
          exact h2 (List.any_eq_true.mpr ⟨v, hv, decide_eq_true hgt⟩)
  · rintro ⟨h1, h2, h3⟩
    have h2' : ¬(ps.any (fun value => decide (value / t > rm.max_per_asset)) = true) := by
      intro hc
      obtain ⟨v, hv, hgt⟩ := List.any_eq_true.mp hc
      exact h2 v hv (of_decide_eq_true hgt)
    rw [if_neg h1, if_neg h2', if_neg h3]

end RiskLemmas

theorem runChecks_nil (rm : RiskManager) : runChecks rm [] = rm := rfl

theorem runChecks_cons (rm : RiskManager) (c : ℚ × List ℚ)
    (cs : List (ℚ × List ℚ)) :
    runChecks rm (c :: cs) = runChecks ((rm.check c.1 c.2).2) cs := rfl

/-- `peak` can only grow along any call sequence. -/
theorem runChecks_peak_mono (calls : List (ℚ × List ℚ)) :
    ∀ rm : RiskManager, rm.peak ≤ (runChecks rm calls).peak := by
  induction calls with
  | nil => intro rm; exact le_refl _
  | cons c cs ih =>
      intro rm
      rw [runChecks_cons]
      exact le_trans (le_max_left rm.peak c.1) (ih _)

theorem runChecks_today_pnl (calls : List (ℚ × List ℚ)) :
    ∀ rm : RiskManager, (runChecks rm calls).today_pnl = rm.today_pnl := by
  induction calls with
  | nil => intro rm; rfl
  | cons c cs ih => intro rm; rw [runChecks_cons, ih]; rfl

theorem runChecks_max_drawdown (calls : List (ℚ × List ℚ)) :
    ∀ rm : RiskManager, (runChecks rm calls).max_drawdown = rm.max_drawdown := by
  induction calls with
  | nil => intro rm; rfl
  | cons c cs ih => intro rm; rw [runChecks_cons, ih]; rfl

theorem runChecks_max_per_asset (calls : List (ℚ × List ℚ)) :
    ∀ rm : RiskManager, (runChecks rm calls).max_per_asset = rm.max_per_asset := by
  induction calls with
  | nil => intro rm; rfl
  | cons c cs ih => intro rm; rw [runChecks_cons, ih]; rfl

theorem runChecks_daily_loss_limit (calls : List (ℚ × List ℚ)) :
    ∀ rm : RiskManager, (runChecks rm calls).daily_loss_limit = rm.daily_loss_limit := by
  induction calls with
  | nil => intro rm; rfl
  | cons c cs ih => intro rm; rw [runChecks_cons, ih]; rfl

theorem check_fst (rm : RiskManager) (t : ℚ) (ps : List ℚ) :
    (rm.check t ps).1 =
      ({ rm with peak := max rm.peak t } : RiskManager).verdict t ps := rfl

/-- `check` succeeds exactly when all three gates pass on the state with
the updated peak. -/
theorem check_true_iff (rm : RiskManager) (t : ℚ) (ps : List ℚ) :
    (rm.check t ps).1 = true ↔
      ¬((max rm.peak t - t) / max rm.peak t > rm.max_drawdown) ∧
      (∀ v ∈ ps, ¬(v / t > rm.max_per_asset)) ∧
      ¬(rm.today_pnl < -rm.daily_loss_limit * INITIAL_CASH) :=
  verdict_true_iff { rm with peak := max rm.peak t } t ps

theorem verdict_false_of_drawdown (rm : RiskManager) (t : ℚ) (ps : List ℚ)
    (h : (rm.peak - t) / rm.peak > rm.max_drawdown) :
    rm.verdict t ps = false := by
  unfold RiskManager.verdict
  rw [if_pos h]

theorem verdict_false_of_concentration (rm : RiskManager) (t : ℚ) (ps : List ℚ)
    (v : ℚ) (hv : v ∈ ps) (h : v / t > rm.max_per_asset) :
    rm.verdict t ps = false := by
  unfold RiskManager.verdict
  by_cases h1 : (rm.peak - t) / rm.peak > rm.max_drawdown
  · rw [if_pos h1]
  · rw [if_neg h1, if_pos (List.any_eq_true.mpr ⟨v, hv, decide_eq_true h⟩)]

/-- If the drawdown gate passes, the total is at least `(1 - md)` of the
peak. -/
theorem total_ge_of_drawdown_pass (p t md : ℚ) (hp : 0 < p)
    (h : ¬((p - t) / p > md)) : p - md * p ≤ t := by
  rw [gt_iff_lt, not_lt, div_le_iff₀ hp] at h
  linarith

/-- A total below `(1 - md)` of the peak makes the drawdown exceed `md`. -/
theorem drawdown_exceeds_of_total_lt (p t md : ℚ) (hp : 0 < p)
    (h : md * p < p - t) : (p - t) / p > md := by
  rw [gt_iff_lt, lt_div_iff₀ hp]
  exact h

/-- Claim C4: for every call to `RiskManager.check` with any `totalValue`
and any positions, after the call updates `peak` to
`max(peak, totalValue)`: if `(peak − totalValue)/peak > 0.10` —
equivalently, for any `totalValue < peak × 0.9` — then `check` returns
`false`, regardless of the positions list. (`0 < peak` and
`max_drawdown = 0.10` hold in every reachable state, from `__init__`.) -/
theorem c4_drawdown_always_vetoes (rm : RiskManager) (t : ℚ) (ps : List ℚ)
    (hpk : 0 < rm.peak) (hmd : rm.max_drawdown = 10 / 100) :
    ((max rm.peak t - t) / max rm.peak t > 10 / 100 →
      (rm.check t ps).1 = false) ∧
    (t < rm.peak * (9 / 10) → (rm.check t ps).1 = false) := by
  have hdd : (max rm.peak t - t) / max rm.peak t > 10 / 100 →
      (rm.check t ps).1 = false := by
    intro h
    rw [check_fst]
    exact verdict_false_of_drawdown _ _ _ (by simpa [hmd] using h)
  refine ⟨hdd, fun hlt => hdd ?_⟩
  have hmax : max rm.peak t = rm.peak := max_eq_left (by linarith)
  rw [hmax]
  exact drawdown_exceeds_of_total_lt rm.peak t (10 / 100) hpk (by linarith)

theorem c4_witness : (RiskManager.init.check 500000 []).1 = false :=
  (c4_drawdown_always_vetoes RiskManager.init 500000 []
    (by norm_num [RiskManager.init, INITIAL_CASH]) rfl).2
    (by norm_num [RiskManager.init, INITIAL_CASH])

/-- Claim C6: for every call to `RiskManager.check` with any `totalValue`
and any positions list, if some position value divided by `totalValue`
exceeds `0.35` then `check` returns `false`. (`max_per_asset = 0.35`
holds in every reachable state, from `__init__`; the result is `false`
whether the concentration loop is reached or the drawdown gate already
vetoed.) -/
theorem c6_concentration_always_vetoes (rm : RiskManager) (t : ℚ)
    (ps : List ℚ) (hma : rm.max_per_asset = 35 / 100)
    (v : ℚ) (hv : v ∈ ps) (hgt : v / t > 35 / 100) :
    (rm.check t ps).1 = false := by
  rw [check_fst]
  exact verdict_false_of_concentration _ _ _ v hv (by simpa [hma] using hgt)

theorem c6_witness : (RiskManager.init.check 1000 [999]).1 = false :=
  c6_concentration_always_vetoes RiskManager.init 1000 [999] rfl 999
    (by simp) (by norm_num)

/-- Claim C8: `peak` is a monotone non-decreasing high-water mark: each
`check` call sets it to `max(previous peak, totalValue)` before any gate
is evaluated (so also on vetoed calls, the verdict being computed on the
updated state), and along every call sequence from the initial state it
never drops below the initial cash. -/
theorem c8_peak_high_water_mark (rm : RiskManager) (t : ℚ) (ps : List ℚ)
    (calls : List (ℚ × List ℚ)) :
    ((rm.check t ps).2).peak = max rm.peak t ∧
    rm.peak ≤ ((rm.check t ps).2).peak ∧
    INITIAL_CASH ≤ (runChecks RiskManager.init calls).peak := by
  refine ⟨rfl, ?_, ?_⟩
  · rw [check_snd_peak]
    exact le_max_left _ _
  · exact runChecks_peak_mono calls RiskManager.init

/-- Claim C9: `today_pnl` is never reassigned after its initialization to
`0.0`: a `check` call leaves it unchanged, so in every reachable state it
is `0`, the daily-loss condition `today_pnl < −0.04 × INITIAL_CASH` is
never satisfied, and a `false` verdict is always due to the drawdown or
the concentration gate. -/
theorem c9_daily_loss_rule_never_fires (calls : List (ℚ × List ℚ))
    (t : ℚ) (ps : List ℚ) :
    ((runChecks RiskManager.init calls).check t ps).2.today_pnl =
      (runChecks RiskManager.init calls).today_pnl ∧
    (runChecks RiskManager.init calls).today_pnl = 0 ∧
    ¬((runChecks RiskManager.init calls).today_pnl <
        -(runChecks RiskManager.init calls).daily_loss_limit * INITIAL_CASH) ∧
    (((runChecks RiskManager.init calls).check t ps).1 = false →
      (max (runChecks RiskManager.init calls).peak t - t) /
          max (runChecks RiskManager.init calls).peak t >
          (runChecks RiskManager.init calls).max_drawdown ∨
        ∃ v ∈ ps, v / t > (runChecks RiskManager.init calls).max_per_asset) := by
  set s := runChecks RiskManager.init calls with hs
  have hpnl : s.today_pnl = 0 := by
    rw [hs, runChecks_today_pnl]; rfl
  have hdll : s.daily_loss_limit = 4 / 100 := by
    rw [hs, runChecks_daily_loss_limit]; rfl
  have hno : ¬(s.today_pnl < -s.daily_loss_limit * INITIAL_CASH) := by
    rw [hpnl, hdll]
    norm_num [INITIAL_CASH]
  refine ⟨rfl, hpnl, hno, ?_⟩
  intro hfalse
  by_contra hcon
  push_neg at hcon
  obtain ⟨hnd, hnc⟩ := hcon
  have htrue : (s.check t ps).1 = true := by
    rw [check_true_iff]
    exact ⟨not_lt.mpr hnd, fun v hv => not_lt.mpr (hnc v hv), hno⟩
  rw [hfalse] at htrue
  exact Bool.false_ne_true htrue

theorem c9_witness :
    (max (runChecks RiskManager.init []).peak 100 - 100) /
        max (runChecks RiskManager.init []).peak 100 >
        (runChecks RiskManager.init []).max_drawdown ∨
      ∃ v ∈ ([] : List ℚ), v / 100 > (runChecks RiskManager.init []).max_per_asset :=
  (c9_daily_loss_rule_never_fires [] 100 []).2.2.2
    (by norm_num [runChecks, RiskManager.check, RiskManager.verdict,
      RiskManager.init, INITIAL_CASH, max_def])

/-- Claim C10: `RiskManager.check` never divides by zero in a reachable
state: the drawdown denominator (the updated `peak`) is positive because
`peak` starts at `INITIAL_CASH` and is non-decreasing, and the
concentration denominator `totalValue` is nonzero whenever the
concentration loop is reached, i.e. whenever the drawdown gate passed. -/
theorem c10_no_division_by_zero (calls : List (ℚ × List ℚ)) (t : ℚ)
    (ps : List ℚ) :
    ((runChecks RiskManager.init calls).check t ps).2.peak ≠ 0 ∧
    (¬((((runChecks RiskManager.init calls).check t ps).2.peak - t) /
          ((runChecks RiskManager.init calls).check t ps).2.peak >
          (runChecks RiskManager.init calls).max_drawdown) →
      t ≠ 0) := by
  set s := runChecks RiskManager.init calls with hs
  have hpk : (0 : ℚ) < s.peak := by
    have h1 : RiskManager.init.peak ≤ s.peak := by
      rw [hs]
      exact runChecks_peak_mono calls RiskManager.init
    have h2 : RiskManager.init.peak = INITIAL_CASH := rfl
    rw [h2] at h1
    have : (0 : ℚ) < INITIAL_CASH := by norm_num [INITIAL_CASH]
    linarith
  have hp' : (s.check t ps).2.peak = max s.peak t := check_snd_peak s t ps
  have h0 : 0 < max s.peak t := lt_of_lt_of_le hpk (le_max_left _ _)
  refine ⟨by rw [hp']; exact ne_of_gt h0, ?_⟩
  intro hnd
  rw [hp'] at hnd
  have hmd : s.max_drawdown = 10 / 100 := by
    rw [hs, runChecks_max_drawdown]; rfl
  rw [hmd] at hnd
  have hge := total_ge_of_drawdown_pass (max s.peak t) t (10 / 100) h0 hnd
  have ht : 0 < t := by linarith
  exact ne_of_gt ht

theorem c10_witness :
    ((runChecks RiskManager.init []).check 1000000 []).2.peak ≠ 0 ∧
    (1000000 : ℚ) ≠ 0 :=
  ⟨(c10_no_division_by_zero [] 1000000 []).1,
    (c10_no_division_by_zero [] 1000000 []).2
      (by norm_num [runChecks, RiskManager.check, RiskManager.verdict,
        RiskManager.init, INITIAL_CASH, max_def])⟩

/-- Claim C1: when the risk check passed for the cycle (so every current
position value is at most `totalValue × 0.35`, which the concentration
gate enforced), the cap step guarantees `current + diff ≤ totalValue ×
0.35`, and the clamp only reduces a buy: it never increases the diff,
never turns a positive diff negative, and leaves a non-positive diff
(a sell or a no-op) untouched. (`0 < peak`, `max_drawdown = 0.10` and
`max_per_asset = 0.35` hold in every reachable state, from `__init__`.) -/
theorem c1_cap_respects_limit (rm : RiskManager) (t : ℚ) (ps : List ℚ)
    (current target : ℚ)
    (hpk : 0 < rm.peak) (hmd : rm.max_drawdown = 10 / 100)
    (hma : rm.max_per_asset = 35 / 100)
    (hc : (rm.check t ps).1 = true) (hcur : current ∈ ps) :
    current + clampDiff t current target ≤ t * (35 / 100) ∧
    clampDiff t current target ≤ target - current ∧
    (0 < target - current → 0 ≤ clampDiff t current target) ∧
    (target - current ≤ 0 → clampDiff t current target = target - current) := by
  rw [check_true_iff] at hc
  obtain ⟨h1, h2, -⟩ := hc
  have hM : 0 < max rm.peak t := lt_of_lt_of_le hpk (le_max_left _ _)
  rw [hmd] at h1
  have h9 := total_ge_of_drawdown_pass (max rm.peak t) t (10 / 100) hM h1
  have ht : 0 < t := by linarith
  have hcv := h2 current hcur
  rw [hma] at hcv
  have hcap : current ≤ t * (35 / 100) := by
    rw [gt_iff_lt, not_lt, div_le_iff₀ ht] at hcv
    linarith
  simp only [clampDiff]
  split_ifs with hclamp
  · refine ⟨by linarith, by linarith, fun _ => by linarith, fun hle => ?_⟩
    exact absurd hclamp (by push_neg; linarith)
  · exact ⟨not_lt.mp (by simpa using hclamp), le_refl _, fun _ => by linarith,
      fun _ => rfl⟩

theorem c1_witness :
    136000 + clampDiff 1136000 136000 146000 ≤ 1136000 * (35 / 100) ∧
    clampDiff 1136000 136000 146000 ≤ 146000 - 136000 ∧
    ((0 : ℚ) < 146000 - 136000 → 0 ≤ clampDiff 1136000 136000 146000) ∧
    ((146000 : ℚ) - 136000 ≤ 0 →
      clampDiff 1136000 136000 146000 = 146000 - 136000) :=
  c1_cap_respects_limit RiskManager.init 1136000 [136000] 136000 146000
    (by norm_num [RiskManager.init, INITIAL_CASH]) rfl rfl
    (by norm_num [RiskManager.check, RiskManager.verdict, RiskManager.init,
      INITIAL_CASH, max_def])
    (by simp)

/-- Claim C3: the momentum target is
`currentPositionValue + return × BASE_PER_PERCENT × 100` with
`BASE_PER_PERCENT = 10,000`; a `0.01` return (a 1% move) shifts the
target by exactly `$10,000`, and in the spec's scenario a `$136,000`
position with a +1% return yields a `$146,000` target. -/
theorem c3_momentum_target_formula (positions ret : Sym → ℚ) (sym : Sym) :
    computeTargets positions ret sym = positions sym + ret sym * 10000 * 100 ∧
    computeTargets positions (fun _ => 1 / 100) sym = positions sym + 10000 ∧
    computeTargets (fun _ => 136000) (fun _ => 1 / 100) sym = 146000 := by
  refine ⟨rfl, ?_, ?_⟩ <;>
    · simp only [computeTargets, BASE_PER_PERCENT]
      norm_num

/-- Claim C7: the rebalance loop emits an order for a symbol only when the
(possibly clamped) diff satisfies `|diff| > 500`; no emitted order has an
order value within the `$500` dead-band. -/
theorem c7_dead_band (syms : List Sym)
    (momentum_targets positions prices : Sym → ℚ) (total_value : ℚ)
    (o : Order)
    (ho : o ∈ rebalanceOrders syms momentum_targets positions prices total_value) :
    500 < |clampDiff total_value (positions o.symbol) (momentum_targets o.symbol)| := by
  simp only [rebalanceOrders, List.mem_filterMap] at ho
  obtain ⟨sym, hsym, hf⟩ := ho
  by_cases hgt : |clampDiff total_value (positions sym) (momentum_targets sym)| > 500
  · rw [if_pos hgt] at hf
    obtain rfl := Option.some.inj hf
    exact hgt
  · rw [if_neg hgt] at hf
    exact absurd hf (by simp)

theorem c7_witness : 500 < |clampDiff 1136000 136000 146000| :=
  c7_dead_band [.btc] (fun _ => 146000) (fun _ => 136000) (fun _ => 68000)
    1136000 ⟨.btc, "buy", 10000 / 68000⟩
    (by norm_num [rebalanceOrders, clampDiff, Order.mk.injEq])

/-- Claim C2 (counterexample): in forced-fallback mode price resolution is
NOT order-independent and NOT side-effect-free: every `fetch_price` call
runs `mock.update()`, which perturbs all symbols' prices, so resolving
BTC/USD first changes the price subsequently resolved for ETH/USD.  With
the admissible draw stream that moves every price by +1% per update,
fetching ETH/USD directly yields `3500 × 1.01`, while fetching it after
BTC/USD yields `3500 × 1.01²`. -/
theorem c2_counterexample :
    (fetch_price true horusDown
        ((fetch_price true horusDown oracle0 .btc).2) .eth).1 ≠
      (fetch_price true horusDown oracle0 .eth).1 := by
  norm_num [fetch_price, oracle0, constDraw, OracleState.update,
    MockMarket.update, MockMarket.get_price, MockMarket.init]

/-- Claim C2 (amended): price resolution is order-independent and
side-effect-free only on the primary path: when the Horus collaborator's
`get_latest_price` succeeds for the symbols involved (and forced-fallback
is off), `fetch_price` returns the collaborator's price, leaves the
simulator state untouched, and resolving one symbol first does not change
the price resolved for another. -/
theorem c2_amended_primary_order_independent
    (hl : String → Except String ℚ) (st : OracleState) (s1 s2 : Sym)
    (p1 p2 : ℚ) (h1 : hl s1.base = .ok p1) (h2 : hl s2.base = .ok p2) :
    (fetch_price false hl st s1).1 = p1 ∧
    (fetch_price false hl st s1).2 = st ∧
    (fetch_price false hl ((fetch_price false hl st s2).2) s1).1 =
      (fetch_price false hl st s1).1 := by
  have e1 : fetch_price false hl st s1 = (p1, st) := by
    simp [fetch_price, h1]
  have e2 : (fetch_price false hl st s2).2 = st := by
    simp [fetch_price, h2]
  exact ⟨by rw [e1], by rw [e1], by rw [e2]⟩

theorem c2_amended_witness :
    (fetch_price false (fun _ => .ok 5) oracle0 .btc).1 = 5 ∧
    (fetch_price false (fun _ => .ok 5) oracle0 .btc).2 = oracle0 ∧
    (fetch_price false (fun _ => .ok 5)
        ((fetch_price false (fun _ => .ok 5) oracle0 .eth).2) .btc).1 =
      (fetch_price false (fun _ => .ok 5) oracle0 .btc).1 :=
  c2_amended_primary_order_independent (fun _ => .ok 5) oracle0 .btc .eth 5 5
    rfl rfl

/-- The outer handler is not vacuous: live (not dry-run) with a failing
Roostoo balance fetch, the step body itself raises. -/
theorem stepBody_can_raise (st : BotState) :
    (stepBody
      ⟨true, false, horusDown, fun _ => .error "down", .error "boom",
        fun _ _ _ => .error "down"⟩ st).2 = .error "boom" := rfl

/-- Claim C5: whatever any collaborator does during the cycle — the Horus
price or momentum-data fetches, the Roostoo balance fetch or order
submission may raise arbitrarily — `step` returns normally (and keeps the
state the body reached): the price and momentum fetches and `place_order`
catch their own failures, and the `try`/`except` around the whole body
catches everything else (the balance fetch), so no exception propagates
to the scheduled loop. -/
theorem c5_step_never_raises (c : Collab) (st : BotState) :
    ((step c st).2).isOk = true ∧ (step c st).1 = (stepBody c st).1 := by
  unfold step
  rcases hsb : stepBody c st with ⟨st', e⟩
  cases e <;> exact ⟨rfl, rfl⟩

end KzBot2
